import Mathlib

/-!
Verification of the catbox-gun cache connector against its specification.

The development shallowly embeds the two connector variants:

* the embedded-store variant (`src/lib/index.js`), whose backend is a
  graph-style key/value store addressed by a flat `segment/id` key under a
  partition node, with write-time expiry timers; and
* the remote-RPC variant (`src/unnamed/part_001`), whose backend is a gRPC
  service reached through a resilient invoker with bounded retry and
  error-code translation.

JavaScript faults are modelled by the `Except` monad over an explicit error
taxonomy; machine time is an explicit `Int` parameter; the asynchronous
backend acknowledgements are modelled by state-passing.
-/

namespace CatboxGun

/-- Error taxonomy of the connector, as surfaced to callers.
`invalidKey` models the synchronous fault raised by the key-validation step
(`Hoek.assert` on `key.segment` / `key.id`, including the property-access
fault on a `null` key). `invalidArg` models other `Hoek.assert` failures
(for example the remote variant asserting a truthy `item` and `ttl`, or the
partition assertion). `boom msg` models a thrown `Boom(msg)` error. -/
inductive CacheError where
  | invalidKey
  | invalidArg
  | boom (message : String)
deriving DecidableEq, Repr

/-- Logical cache key: a `{segment, id}` pair of strings. A JavaScript key
that is `null` is modelled as `Option.none` at use sites; a key literal
`\x7b\x7d` (missing fields) is modelled with empty-string fields, which are
falsy exactly like the missing properties. -/
structure CacheKey where
  segment : String
  id : String
deriving DecidableEq, Repr

/-- Models `Hoek.assert(!!key.segment); Hoek.assert(!!key.id)` (lines 64-65,
92-93, 131-132 of `src/lib/index.js`). A `null` key faults on the property
access itself; both that fault and the assertion failure are synchronous and
are modelled uniformly as the `invalidKey` condition of the taxonomy. -/
def checkKey : Option CacheKey → Except CacheError CacheKey
  | none => .error .invalidKey
  | some k =>
    if k.segment = "" then .error .invalidKey
    else if k.id = "" then .error .invalidKey
    else .ok k

/-! ## Resilient invoker (remote-RPC variant, `src/unnamed/part_001`) -/

/-- Transport-level error as reported by the gRPC layer: a numeric status
code (`Grpc.status.UNAVAILABLE = 14`, `INVALID_ARGUMENT = 3`,
`NOT_FOUND = 5`), a detail string (empty when absent), a generic message,
and optional structured metadata (`error.metadata.getMap()`), modelled as an
association list of strings. -/
structure GrpcError where
  code : Nat
  details : String
  message : String
  metadata : Option (List (String × String))
deriving DecidableEq, Repr

/-- Outcome of one transport attempt: a response or a transport error. -/
inductive TransportOutcome (R : Type) where
  | ok (resp : R)
  | err (e : GrpcError)
deriving DecidableEq, Repr

/-- Stable error-taxonomy kinds produced by the invoker, mirroring the
`TypedError` constructors `badRequestError`, `notFoundError`,
`badImplementationError` (lines 15-31 of `src/unnamed/part_001`). -/
inductive ErrType where
  | badRequest
  | notFound
  | badImplementation
deriving DecidableEq, Repr

/-- Translated error thrown by the invoker: taxonomy kind, HTTP-style
status code, human-readable message, and optional structured data. -/
structure ServiceError where
  etype : ErrType
  statusCode : Nat
  message : String
  data : Option (List (String × String))
deriving DecidableEq, Repr

/-- Models `GRPC_CODE2ERROR_TYPE` (lines 38-41) together with the
`|| badImplementationError` fallback (lines 76-77): code 3 maps to
`badRequest` (status 400), code 5 to `notFound` (status 404), anything else
to `badImplementation` (status 500). -/
def errTypeOfCode (code : Nat) : ErrType × Nat :=
  if code = 3 then (.badRequest, 400)
  else if code = 5 then (.notFound, 404)
  else (.badImplementation, 500)

/-- Models the JavaScript built-in `String.prototype.trim`: whitespace is
stripped from both ends. Defined by structural recursion over the character
list so that it evaluates inside the kernel. -/
def jsTrim (s : String) : String :=
  ⟨((s.data.dropWhile Char.isWhitespace).reverse.dropWhile Char.isWhitespace).reverse⟩

/-- Models the error-translation block of `createService` (lines 76-88 of
`src/unnamed/part_001`): pick the taxonomy kind from the code table, use
`error.details` as the message when its trimmed form is non-empty and
`error.message` otherwise, and attach `error.metadata.getMap()` as `data`
only when the metadata is present and has at least one key. -/
def translateError (e : GrpcError) : ServiceError :=
  let tc := errTypeOfCode e.code
  let msg := if jsTrim e.details ≠ "" then e.details else e.message
  let d : Option (List (String × String)) :=
    match e.metadata with
    | none => none
    | some m => if m = [] then none else some m
  { etype := tc.1, statusCode := tc.2, message := msg, data := d }

/-- Models the exhaustion error thrown after the retry loop (lines 94-96):
`badImplementationError` with the connect-failure message. -/
def exhaustedError : ServiceError :=
  { etype := .badImplementation, statusCode := 500,
    message := "Couldn\u0027t connect to GUN caching service", data := none }

/-- Observable event of one invoker run: a transport call (with its 0-based
attempt index) or an inter-attempt delay in milliseconds. -/
inductive Ev where
  | call (i : Nat)
  | delay (ms : Nat)
deriving DecidableEq, Repr

/-- Result of an invoker run: the successful response or the error thrown. -/
inductive InvOutcome (R : Type) where
  | success (r : R)
  | failure (e : ServiceError)
deriving DecidableEq, Repr

/-- Models the retry loop of `createService` (lines 64-96 of
`src/unnamed/part_001`). `tr` is the transport oracle giving the outcome of
each attempt; `attempts` is the loop counter (which in the source is also
the attempt index, since any iteration that does not hit the
service-unavailable branch terminates the loop); `remaining` is the value
`3 - attempts` maintained by the caller. On `UNAVAILABLE` (code 14) the
counter is incremented and a fixed 1000 ms delay is awaited before the next
iteration; any other error is translated and thrown immediately; once
`attempts` reaches 3 the exhaustion error is thrown. -/
def invokeGo {R : Type} (tr : Nat → TransportOutcome R) :
    Nat → Nat → List Ev × InvOutcome R
  | _, 0 => ([], .failure exhaustedError)
  | attempts, r + 1 =>
    match tr attempts with
    | .ok resp => ([Ev.call attempts], .success resp)
    | .err e =>
      if e.code = 14 then
        let rest := invokeGo tr (attempts + 1) r
        (Ev.call attempts :: Ev.delay 1000 :: rest.1, rest.2)
      else
        ([Ev.call attempts], .failure (translateError e))

/-- One full run of a promisified, retry-wrapped service method: the loop
`while (attempts < 3)` started with `attempts = 0`. -/
def invoke {R : Type} (tr : Nat → TransportOutcome R) : List Ev × InvOutcome R :=
  invokeGo tr 0 3

/-- Trace produced by `n` consecutive service-unavailable attempts: each
attempt is a call followed by the fixed 1000 ms delay. -/
def unavailTrace : Nat → List Ev
  | 0 => []
  | n + 1 => unavailTrace n ++ [Ev.call n, Ev.delay 1000]

/-! ## Embedded-store variant (`src/lib/index.js`) -/

/-- Stored record pairing a value with its write timestamp (`Date.now()`)
and TTL, created by `createEnvelope` (lines 12-19 of `src/lib/index.js`). -/
structure Envelope (V : Type) where
  item : V
  stored : Int
  ttl : Int
deriving DecidableEq, Repr

/-- State of the live embedded-store backend handle. `store` records the
writes issued through the handle, newest first, addressed by the
`(partition, gunKey)` path; a `none` entry is a tombstone (`put(null)`).
`timers` records the expiry timers armed by `.later(cb, ttl / 1000)` at
write time: the path that the timer callback will tombstone and the
absolute time at which the underlying `setTimeout` fires (`ttl` milliseconds
after the write, with negative delays clamped to zero as `setTimeout`
does). -/
structure GunState (V : Type) where
  store : List ((String × String) × Option (Envelope V))
  timers : List ((String × String) × Int)
deriving DecidableEq, Repr

/-- Reads the node a chain `gun.get(partition).get(id)` addresses: the most
recent write at that path, or `none` when the path was never written. -/
def findPath {V : Type} :
    List ((String × String) × Option (Envelope V)) → String × String →
    Option (Option (Envelope V))
  | [], _ => none
  | (q, e) :: rest, p => if q = p then some e else findPath rest p

/-- Settings of the embedded-store variant after construction:
`Hoek.applyToDefaults(\x7b partition: "catbox" \x7d, options)` (lines 8-10, 27 of
`src/lib/index.js`), plus the optional `file` persistence path. -/
structure LibSettings where
  partition : String
  file : Option String
deriving DecidableEq, Repr

/-- Embedded-store connector: immutable settings plus the mutable backend
handle, `none` while stopped. -/
structure Connection (V : Type) where
  settings : LibSettings
  gun : Option (GunState V)
deriving DecidableEq, Repr

/-- Models `start()` (lines 31-36): when the handle is null a fresh store
instance is created (`Gun(\x7b localStorage: false, file \x7d)`); an
already-live handle is left untouched. The fresh instance starts with no
recorded writes; on-disk persistence is an external collaborator outside
the model. -/
def Connection.start {V : Type} (c : Connection V) : Connection V :=
  match c.gun with
  | some _ => c
  | none => { c with gun := some { store := [], timers := [] } }

/-- Models `stop()` (lines 38-41): the handle is cleared. -/
def Connection.stop {V : Type} (c : Connection V) : Connection V :=
  { c with gun := none }

/-- Models `isReady()` (lines 43-46): truthiness of the handle. -/
def Connection.isReady {V : Type} (c : Connection V) : Bool :=
  c.gun.isSome

/-- Models `validateSegmentName(name)` (lines 48-59): a falsy (empty) name
throws `Boom("Empty string")`, a name containing the null character throws
`Boom("Includes null character")`, and otherwise the method returns `null`
(success with no value). The method reads nothing from the connector
instance, in particular not the handle. -/
def Connection.validateSegmentName {V : Type} (_c : Connection V)
    (name : String) : Except CacheError Unit :=
  if name = "" then .error (.boom "Empty string")
  else if name.data.contains (Char.ofNat 0) then
    .error (.boom "Includes null character")
  else .ok ()

/-- Models `generateKey(key)` (lines 129-134): assert both key fields
truthy, then join them as `segment + "/" + id` (`[segment, id].join("/")`). -/
def generateKey (key : Option CacheKey) : Except CacheError String := do
  let k ← checkKey key
  .ok (k.segment ++ "/" ++ k.id)

/-- Models `get(key)` (lines 61-87): assert the key fields, throw
`Boom("Connection not started")` on a null handle, assert the partition,
derive the gun key, read the node once, and return `null` for a missing or
tombstoned node and otherwise a shallow `\x7b item, stored, ttl \x7d` copy
of the envelope. No expiry check happens at read time. -/
def Connection.get {V : Type} (c : Connection V) (key : Option CacheKey) :
    Except CacheError (Option (Envelope V)) := do
  let _ ← checkKey key
  match c.gun with
  | none => .error (.boom "Connection not started")
  | some g =>
    if c.settings.partition = "" then .error .invalidArg
    else do
      let id ← generateKey key
      match (findPath g.store (c.settings.partition, id)).join with
      | none => .ok none
      | some env => .ok (some { item := env.item, stored := env.stored, ttl := env.ttl })

/-- Models `set(key, value, ttl)` (lines 89-115): assert the key fields,
throw on a null handle, build the envelope stamped with the current time,
assert the partition, derive the gun key, write the envelope at the derived
path and arm the `.later` expiry timer, which will fire `ttl` milliseconds
after the write (immediately for a non-positive `ttl`, since `setTimeout`
clamps negative delays to zero) and tombstone the path. -/
def Connection.set {V : Type} (c : Connection V) (key : Option CacheKey)
    (value : V) (ttl : Int) (now : Int) : Except CacheError (Connection V) := do
  let _ ← checkKey key
  match c.gun with
  | none => .error (.boom "Connection not started")
  | some g =>
    let envelope : Envelope V := { item := value, stored := now, ttl := ttl }
    if c.settings.partition = "" then .error .invalidArg
    else do
      let gunKey ← generateKey key
      let p := (c.settings.partition, gunKey)
      .ok { c with gun := some (GunState.mk
        ((p, some envelope) :: g.store)
        ((p, now + max ttl 0) :: g.timers)) }

/-- Models `drop(key)` (lines 117-127): throw on a null handle, assert the
partition, derive the gun key (which asserts the key fields), and write a
tombstone (`put(null)`) at the derived path, whether or not the path or its
segment ever existed. -/
def Connection.drop {V : Type} (c : Connection V) (key : Option CacheKey) :
    Except CacheError (Connection V) := do
  match c.gun with
  | none => .error (.boom "Connection not started")
  | some g =>
    if c.settings.partition = "" then .error .invalidArg
    else do
      let gk ← generateKey key
      .ok { c with gun := some (GunState.mk
        (((c.settings.partition, gk), none) :: g.store) g.timers) }

/-- Fires the most recently armed expiry timer of the handle: the timer is
consumed and its `.later` callback writes a tombstone at the recorded path
(lines 110-113 of `src/lib/index.js`). -/
def fireNextTimer {V : Type} (g : GunState V) : GunState V :=
  match g.timers with
  | [] => g
  | (p, _) :: rest => { store := (p, none) :: g.store, timers := rest }

/-! ## Constructor peers normalization (`src/unnamed/part_000` lines 29-38,
`src/unnamed/part_001` lines 121-130) -/

/-- Value of the `peers` construction option before normalization: absent
from the options object, explicitly `null` (also the default applied by
`Hoek.applyToDefaults`), or an array of peer addresses. -/
inductive PeersOption where
  | absent
  | nullVal
  | arr (l : List String)
deriving DecidableEq, Repr

/-- Value of `settings.peers` after construction, in the same JavaScript
value universe: the key may be deleted (`absent`), be `null`, be an array,
or be an object mapping each peer address to `null` (a pair with second
component `none`). -/
inductive PeersSetting where
  | absent
  | nullVal
  | arr (l : List String)
  | obj (m : List (String × Option Unit))
deriving DecidableEq, Repr

/-- Models the identical peers-normalization block of both constructors
that accept a `peers` option: after `applyToDefaults` (whose default is
`peers: null`) a falsy `peers` value has its key deleted from the settings,
and otherwise the array is reduced to an object mapping each peer address
to `null`. An empty array is truthy in JavaScript and therefore reduces to
an empty object rather than being deleted. -/
def normalizePeers : PeersOption → PeersSetting
  | .absent => .absent
  | .nullVal => .absent
  | .arr l => .obj (l.map fun p => (p, none))

/-- Construction options recognized by the peers-accepting embedded variant
(`src/unnamed/part_000`). -/
structure Part0Options where
  partition : Option String
  peers : PeersOption
  file : Option String
deriving DecidableEq, Repr

/-- Settings held by the peers-accepting embedded variant after its
constructor ran. -/
structure Part0Settings where
  partition : String
  peers : PeersSetting
  file : Option String
deriving DecidableEq, Repr

/-- Models the constructor of `src/unnamed/part_000` (lines 24-40):
`applyToDefaults(\x7b partition: "catbox", peers: null \x7d, options)`
followed by the peers normalization. -/
def mkPart0Settings (opts : Part0Options) : Part0Settings :=
  { partition := opts.partition.getD "catbox",
    peers := normalizePeers opts.peers,
    file := opts.file }

/-! ## Remote-RPC variant (`src/unnamed/part_001`) -/

/-- Construction options recognized by the remote variant: `partition`,
`peers`, and the three TLS credential strings asserted to be strings by the
constructor (lines 118-120). -/
structure RemoteOptions where
  partition : Option String
  peers : PeersOption
  grpcTlsCa : String
  grpcTlsClientKey : String
  grpcTlsClientCert : String
deriving DecidableEq, Repr

/-- Settings held by the remote variant after its constructor ran. -/
structure RSettings where
  partition : String
  peers : PeersSetting
  grpcTlsCa : String
  grpcTlsClientKey : String
  grpcTlsClientCert : String
deriving DecidableEq, Repr

/-- Models the constructor of `src/unnamed/part_001` (lines 113-132):
defaults application followed by the peers normalization; the TLS fields
are carried through unchanged. -/
def mkRemoteSettings (opts : RemoteOptions) : RSettings :=
  { partition := opts.partition.getD "catbox",
    peers := normalizePeers opts.peers,
    grpcTlsCa := opts.grpcTlsCa,
    grpcTlsClientKey := opts.grpcTlsClientKey,
    grpcTlsClientCert := opts.grpcTlsClientCert }

/-- Handle created by `createService(settings)` (lines 46-101): the table
of promisified, retry-wrapped service methods, closed over the settings the
client was built from. The per-method retry and translation behavior is
modelled by `invoke`. -/
structure RService where
  settings : RSettings
deriving DecidableEq, Repr

/-- Remote-RPC connector: immutable settings plus the mutable service
handle, `none` while stopped. -/
structure RConnection where
  settings : RSettings
  service : Option RService
deriving DecidableEq, Repr

/-- Models the remote `start()` (lines 134-140): when the handle is null the
service method table is created; an already-live handle is left untouched. -/
def RConnection.start (c : RConnection) : RConnection :=
  match c.service with
  | some _ => c
  | none => { c with service := some { settings := c.settings } }

/-- Models the remote `stop()` (lines 142-145). -/
def RConnection.stop (c : RConnection) : RConnection :=
  { c with service := none }

/-- Models the remote `isReady()` (lines 147-150). -/
def RConnection.isReady (c : RConnection) : Bool :=
  c.service.isSome

/-- Models `generatePath(settings, key)` (lines 103-109): assert the
partition and both key fields, then return the hierarchical path
`[partition, segment, id]`. -/
def generatePath (settings : RSettings) (key : Option CacheKey) :
    Except CacheError (List String) :=
  if settings.partition = "" then .error .invalidArg
  else
    match key with
    | none => .error .invalidKey
    | some k =>
      if k.segment = "" then .error .invalidKey
      else if k.id = "" then .error .invalidKey
      else .ok [settings.partition, k.segment, k.id]

/-- Request message of `getEntry`. -/
structure GetEntryReq where
  path : List String
deriving DecidableEq, Repr

/-- Request message of `setEntry`. -/
structure SetEntryReq where
  path : List String
  item : String
  ttl : Int
deriving DecidableEq, Repr

/-- Request message of `deleteEntry`. -/
structure DeleteEntryReq where
  path : List String
deriving DecidableEq, Repr

/-- Models the remote `get(key)` (lines 165-182) up to the point where the
`getEntry` request is handed to the resilient invoker (whose behavior is
modelled by `invoke`): assert the key fields, throw on a null handle,
assert the partition, and build the request from the derived path. -/
def RConnection.get (c : RConnection) (key : Option CacheKey) :
    Except CacheError GetEntryReq := do
  let _ ← checkKey key
  match c.service with
  | none => .error (.boom "Connection not started")
  | some _ =>
    if c.settings.partition = "" then .error .invalidArg
    else do
      let path ← generatePath c.settings key
      .ok { path := path }

/-- Models the remote `set(key, item, ttl)` (lines 184-198) up to the point
where the `setEntry` request is handed to the resilient invoker: assert the
key fields, assert a truthy `item` and a truthy `ttl` (an up-front local
validation failure for a falsy value — note that a negative `ttl` is truthy
and passes), throw on a null handle, and build the request. -/
def RConnection.set (c : RConnection) (key : Option CacheKey)
    (item : String) (ttl : Int) : Except CacheError SetEntryReq := do
  let _ ← checkKey key
  if item = "" then .error .invalidArg
  else if ttl = 0 then .error .invalidArg
  else
    match c.service with
    | none => .error (.boom "Connection not started")
    | some _ => do
      let path ← generatePath c.settings key
      .ok { path := path, item := item, ttl := ttl }

/-- Models the remote `drop(key)` (lines 200-209) up to the point where the
`deleteEntry` request is handed to the resilient invoker: throw on a null
handle, then derive the path (which asserts the partition and key fields). -/
def RConnection.drop (c : RConnection) (key : Option CacheKey) :
    Except CacheError DeleteEntryReq := do
  match c.service with
  | none => .error (.boom "Connection not started")
  | some _ => do
    let path ← generatePath c.settings key
    .ok { path := path }

/-! ## Theorems -/

/-- Computation rule of the `Except` monad on a successful step. -/
@[simp] theorem except_bind_ok {ε α β : Type} (a : α) (f : α → Except ε β) :
    (Except.ok a : Except ε α) >>= f = f a := rfl

/-- Computation rule of the `Except` monad on a failing step. -/
@[simp] theorem except_bind_err {ε α β : Type} (e : ε) (f : α → Except ε β) :
    (Except.error e : Except ε α) >>= f = Except.error e := rfl

/-- Unfolding of one service-unavailable iteration of the retry loop. -/
theorem invokeGo_unavail_step {R : Type} (tr : Nat → TransportOutcome R)
    (a r : Nat) (u : GrpcError) (h : tr a = .err u) (hc : u.code = 14) :
    invokeGo tr a (r + 1) =
      (Ev.call a :: Ev.delay 1000 :: (invokeGo tr (a + 1) r).1,
       (invokeGo tr (a + 1) r).2) := by
  simp [invokeGo, h, hc]

/-- C1: when the transport reports service unavailable on every attempt,
the resilient invoker makes exactly 3 transport calls with a fixed 1000 ms
delay between attempts and then fails with the `InternalError`
(`badImplementation`, statusCode 500) whose message identifies the
inability to reach the backing service; and when any of the 3 attempts
succeeds after only transient failures, the response of that attempt is returned
with no visible error. -/
theorem invoke_unavailable_retry_policy {R : Type} (tr : Nat → TransportOutcome R) :
    ((∀ i, i < 3 → ∃ u, tr i = .err u ∧ u.code = 14) →
      invoke tr =
        ([Ev.call 0, Ev.delay 1000, Ev.call 1, Ev.delay 1000,
          Ev.call 2, Ev.delay 1000],
         .failure { etype := .badImplementation, statusCode := 500,
                    message := "Couldn\u0027t connect to GUN caching service",
                    data := none }))
    ∧ (∀ i r, i < 3 → (∀ j, j < i → ∃ u, tr j = .err u ∧ u.code = 14) →
        tr i = .ok r → (invoke tr).2 = .success r) := by
  constructor
  · intro h
    obtain ⟨u0, h0, hc0⟩ := h 0 (by omega)
    obtain ⟨u1, h1, hc1⟩ := h 1 (by omega)
    obtain ⟨u2, h2, hc2⟩ := h 2 (by omega)
    simp [invoke, invokeGo, h0, hc0, h1, hc1, h2, hc2, exhaustedError]
  · intro i r hi hpre hok
    interval_cases i
    · simp [invoke, invokeGo, hok]
    · obtain ⟨u0, h0, hc0⟩ := hpre 0 (by omega)
      simp [invoke, invokeGo, h0, hc0, hok]
    · obtain ⟨u0, h0, hc0⟩ := hpre 0 (by omega)
      obtain ⟨u1, h1, hc1⟩ := hpre 1 (by omega)
      simp [invoke, invokeGo, h0, hc0, h1, hc1, hok]

/-- Witness for C1: a transport that is unavailable on every attempt yields
the exhaustion trace and error. -/
theorem invoke_unavailable_retry_policy_witness :
    invoke (R := Unit)
      (fun _ => .err { code := 14, details := "", message := "", metadata := none }) =
      ([Ev.call 0, Ev.delay 1000, Ev.call 1, Ev.delay 1000,
        Ev.call 2, Ev.delay 1000],
       .failure { etype := .badImplementation, statusCode := 500,
                  message := "Couldn\u0027t connect to GUN caching service",
                  data := none }) :=
  (invoke_unavailable_retry_policy
    (fun _ => .err { code := 14, details := "", message := "", metadata := none })).1
    (fun _ _ => ⟨_, rfl, rfl⟩)

/-- C2: every transport failure that is not service unavailable (code 14)
is translated immediately, with no retry, through the fixed table — code 3
to `badRequest` with status 400, code 5 to `notFound` with status 404, any
other code to `badImplementation` with status 500 — with the transport-reported
detail string as message when non-empty after trimming and its generic
message otherwise, and with a `data` field exactly when non-empty
structured metadata was attached, never an empty object. -/
theorem invoke_error_translation (e : GrpcError) (he : e.code ≠ 14) :
    invoke (R := Unit) (fun _ => .err e) = ([Ev.call 0], .failure (translateError e))
    ∧ (∀ (tr : Nat → TransportOutcome Unit) (i : Nat), i < 3 →
        (∀ j, j < i → ∃ u, tr j = .err u ∧ u.code = 14) →
        tr i = .err e →
        invoke tr = (unavailTrace i ++ [Ev.call i], .failure (translateError e)))
    ∧ (e.code = 3 →
        (translateError e).etype = .badRequest ∧ (translateError e).statusCode = 400)
    ∧ (e.code = 5 →
        (translateError e).etype = .notFound ∧ (translateError e).statusCode = 404)
    ∧ (e.code ≠ 3 → e.code ≠ 5 →
        (translateError e).etype = .badImplementation ∧
        (translateError e).statusCode = 500)
    ∧ (jsTrim e.details ≠ "" → (translateError e).message = e.details)
    ∧ (jsTrim e.details = "" → (translateError e).message = e.message)
    ∧ (∀ m, e.metadata = some m → m ≠ [] → (translateError e).data = some m)
    ∧ ((e.metadata = none ∨ e.metadata = some []) → (translateError e).data = none)
    ∧ (translateError e).data ≠ some [] := by
  refine ⟨?_, ?_, ?_, ?_, ?_, ?_, ?_, ?_, ?_, ?_⟩
  · simp [invoke, invokeGo, he]
  · intro tr i hi hpre hok
    interval_cases i
    · simp [invoke, invokeGo, hok, he, unavailTrace]
    · obtain ⟨u0, h0, hc0⟩ := hpre 0 (by omega)
      simp [invoke, invokeGo, h0, hc0, hok, he, unavailTrace]
    · obtain ⟨u0, h0, hc0⟩ := hpre 0 (by omega)
      obtain ⟨u1, h1, hc1⟩ := hpre 1 (by omega)
      simp [invoke, invokeGo, h0, hc0, h1, hc1, hok, he, unavailTrace]
  · intro h3
    simp [translateError, errTypeOfCode, h3]
  · intro h5
    have h3 : e.code ≠ 3 := by omega
    simp [translateError, errTypeOfCode, h3, h5]
  · intro h3 h5
    simp [translateError, errTypeOfCode, h3, h5]
  · intro hd
    simp [translateError, hd]
  · intro hd
    simp [translateError, hd]
  · intro m hm hne
    simp [translateError, hm, hne]
  · intro hm
    rcases hm with hm | hm <;> simp [translateError, hm]
  · rcases hmeta : e.metadata with _ | m
    · simp [translateError, hmeta]
    · by_cases hm : m = [] <;> simp [translateError, hmeta, hm]

/-- Witness for C2: a not-found failure (code 5) with blank details and
non-empty metadata is translated on the first attempt into a `notFound`
error with status 404, the generic message, and the metadata as data. -/
theorem invoke_error_translation_witness :
    invoke (R := Unit)
      (fun _ => .err { code := 5, details := " ", message := "gone",
                       metadata := some [("k", "v")] }) =
      ([Ev.call 0],
       .failure { etype := .notFound, statusCode := 404, message := "gone",
                  data := some [("k", "v")] }) := by
  have h := (invoke_error_translation
    { code := 5, details := " ", message := "gone", metadata := some [("k", "v")] }
    (by decide)).1
  rw [h]
  rfl

/-- C7: the connector lifecycle is a two-state machine in both variants:
after `start()` the handle is non-null and `isReady()` is true; `start()`
from the started state is a no-op leaving the handle unchanged without
raising; after `stop()` the handle is null and `isReady()` is false. -/
theorem connector_lifecycle_state_machine {V : Type} (c : Connection V)
    (rc : RConnection) :
    (Connection.start c).gun ≠ none
    ∧ (Connection.start c).isReady = true
    ∧ Connection.start (Connection.start c) = Connection.start c
    ∧ (Connection.stop c).gun = none
    ∧ (Connection.stop c).isReady = false
    ∧ (RConnection.start rc).service ≠ none
    ∧ (RConnection.start rc).isReady = true
    ∧ RConnection.start (RConnection.start rc) = RConnection.start rc
    ∧ (RConnection.stop rc).service = none
    ∧ (RConnection.stop rc).isReady = false := by
  rcases hc : c.gun with _ | g <;> rcases hr : rc.service with _ | s <;>
    simp [Connection.start, Connection.stop, Connection.isReady,
      RConnection.start, RConnection.stop, RConnection.isReady, hc, hr]

/-- Counterexample for C8 as stated: `validateSegmentName` is an operation
other than `start`, `stop` and `isReady`, yet invoked on a connector whose
handle is null it succeeds (returning the source-level `null`) instead of
failing with the not-started condition — the method never consults the
handle. -/
theorem validateSegmentName_ignores_stopped_state :
    ({ settings := { partition := "catbox", file := none }, gun := none } :
        Connection Nat).gun = none
    ∧ Connection.validateSegmentName
        ({ settings := { partition := "catbox", file := none }, gun := none } :
          Connection Nat) "valid" = .ok () :=
  ⟨rfl, rfl⟩

/-- C8 amended: each data operation (`get`, `set`, `drop`) of either
variant, invoked while the handle is null, fails with the
"Connection not started" condition; the pure validation operations
(`validateSegmentName`, key derivation) do not consult the handle. -/
theorem data_ops_require_started {V : Type} (c : Connection V)
    (hc : c.gun = none) (k : CacheKey) (hs : k.segment ≠ "") (hi : k.id ≠ "")
    (v : V) (ttl now : Int) (rc : RConnection) (hrc : rc.service = none)
    (item : String) (hitem : item ≠ "") (httl : ttl ≠ 0) :
    Connection.get c (some k) = .error (.boom "Connection not started")
    ∧ Connection.set c (some k) v ttl now = .error (.boom "Connection not started")
    ∧ Connection.drop c (some k) = .error (.boom "Connection not started")
    ∧ RConnection.get rc (some k) = .error (.boom "Connection not started")
    ∧ RConnection.set rc (some k) item ttl = .error (.boom "Connection not started")
    ∧ RConnection.drop rc (some k) = .error (.boom "Connection not started") := by
  refine ⟨?_, ?_, ?_, ?_, ?_, ?_⟩ <;>
    simp [Connection.get, Connection.set, Connection.drop,
      RConnection.get, RConnection.set, RConnection.drop,
      checkKey, hs, hi, hc, hrc, hitem, httl]

/-- Witness for C8 amended: all six data operations reject on concrete
stopped connectors. -/
theorem data_ops_require_started_witness :
    Connection.get
      ({ settings := { partition := "catbox", file := none }, gun := none } :
        Connection Nat) (some { segment := "test", id := "x" }) =
      .error (.boom "Connection not started")
    ∧ RConnection.set
      { settings := { partition := "catbox", peers := .absent, grpcTlsCa := "ca",
                      grpcTlsClientKey := "key", grpcTlsClientCert := "cert" },
        service := none }
      (some { segment := "test", id := "x" }) "y" 50 =
      .error (.boom "Connection not started") := by
  have h := data_ops_require_started
    ({ settings := { partition := "catbox", file := none }, gun := none } :
      Connection Nat) rfl { segment := "test", id := "x" }
    (by decide) (by decide) 0 50 0
    { settings := { partition := "catbox", peers := .absent, grpcTlsCa := "ca",
                    grpcTlsClientKey := "key", grpcTlsClientCert := "cert" },
      service := none } rfl "y" (by decide) (by decide)
  exact ⟨h.1, h.2.2.2.2.1⟩

/-- C9: for each of `get`, `set` and `drop` of the embedded variant, on a
started connector, a call whose key lacks a truthy segment or a truthy id —
including the empty key object and the null key — fails with the
`invalidKey` condition, synchronously before any backend interaction (the
error is produced by the key-validation step itself and no write is
issued). -/
theorem invalid_key_rejected_synchronously {V : Type} (c : Connection V)
    (g : GunState V) (hg : c.gun = some g) (hp : c.settings.partition ≠ "")
    (key : Option CacheKey)
    (hbad : key = none ∨ ∃ k, key = some k ∧ (k.segment = "" ∨ k.id = ""))
    (v : V) (ttl now : Int) :
    Connection.get c key = .error .invalidKey
    ∧ Connection.set c key v ttl now = .error .invalidKey
    ∧ Connection.drop c key = .error .invalidKey := by
  rcases hbad with hnull | ⟨k, hk, hfields⟩
  · subst hnull
    refine ⟨?_, ?_, ?_⟩ <;>
      simp [Connection.get, Connection.set, Connection.drop, generateKey,
        checkKey, hg, hp]
  · subst hk
    rcases hfields with hseg | hid
    · refine ⟨?_, ?_, ?_⟩ <;>
        simp [Connection.get, Connection.set, Connection.drop, generateKey,
          checkKey, hseg, hg, hp]
    · by_cases hseg : k.segment = "" <;>
        refine ⟨?_, ?_, ?_⟩ <;>
        simp [Connection.get, Connection.set, Connection.drop, generateKey,
          checkKey, hseg, hid, hg, hp]

/-- Witness for C9: the empty key object and the null key are rejected by
all three operations on a concrete started connector. -/
theorem invalid_key_rejected_synchronously_witness :
    Connection.get
      ({ settings := { partition := "catbox", file := none },
         gun := some { store := [], timers := [] } } : Connection Nat)
      (some { segment := "", id := "" }) = .error .invalidKey
    ∧ Connection.drop
      ({ settings := { partition := "catbox", file := none },
         gun := some { store := [], timers := [] } } : Connection Nat)
      none = .error .invalidKey := by
  have h1 := invalid_key_rejected_synchronously
    ({ settings := { partition := "catbox", file := none },
       gun := some { store := [], timers := [] } } : Connection Nat)
    { store := [], timers := [] } rfl (by decide)
    (some { segment := "", id := "" })
    (Or.inr ⟨{ segment := "", id := "" }, rfl, Or.inl rfl⟩) 0 1 2
  have h2 := invalid_key_rejected_synchronously
    ({ settings := { partition := "catbox", file := none },
       gun := some { store := [], timers := [] } } : Connection Nat)
    { store := [], timers := [] } rfl (by decide) none (Or.inl rfl) 0 1 2
  exact ⟨h1.1, h2.2.2⟩

/-- C10: in both variants that accept a `peers` option, construction
normalizes it: a non-empty peers array becomes an object mapping each peer
address to null in `settings.peers`, an absent or falsy (`null`) peers
value results in the peers key being deleted from the settings entirely,
and after construction `settings.peers` is never a null leftover nor an
array. -/
theorem constructor_normalizes_peers (o0 : Part0Options) (oR : RemoteOptions)
    (l : List String) (_hl : l ≠ []) :
    (o0.peers = .arr l →
      (mkPart0Settings o0).peers = .obj (l.map fun p => (p, none)))
    ∧ (o0.peers = .absent ∨ o0.peers = .nullVal →
      (mkPart0Settings o0).peers = .absent)
    ∧ (∀ l2, (mkPart0Settings o0).peers ≠ .arr l2)
    ∧ (mkPart0Settings o0).peers ≠ .nullVal
    ∧ (oR.peers = .arr l →
      (mkRemoteSettings oR).peers = .obj (l.map fun p => (p, none)))
    ∧ (oR.peers = .absent ∨ oR.peers = .nullVal →
      (mkRemoteSettings oR).peers = .absent)
    ∧ (∀ l2, (mkRemoteSettings oR).peers ≠ .arr l2)
    ∧ (mkRemoteSettings oR).peers ≠ .nullVal := by
  refine ⟨?_, ?_, ?_, ?_, ?_, ?_, ?_, ?_⟩
  · intro h
    simp [mkPart0Settings, normalizePeers, h]
  · rintro (h | h) <;> simp [mkPart0Settings, normalizePeers, h]
  · intro l2
    rcases h : o0.peers <;> simp [mkPart0Settings, normalizePeers, h]
  · rcases h : o0.peers <;> simp [mkPart0Settings, normalizePeers, h]
  · intro h
    simp [mkRemoteSettings, normalizePeers, h]
  · rintro (h | h) <;> simp [mkRemoteSettings, normalizePeers, h]
  · intro l2
    rcases h : oR.peers <;> simp [mkRemoteSettings, normalizePeers, h]
  · rcases h : oR.peers <;> simp [mkRemoteSettings, normalizePeers, h]

/-- Witness for C10: a concrete two-peer array is normalized to the object
form in both variants, and an absent option is deleted. -/
theorem constructor_normalizes_peers_witness :
    (mkPart0Settings
        { partition := none, peers := .arr ["peer1", "peer2"], file := none }).peers =
      .obj [("peer1", none), ("peer2", none)]
    ∧ (mkRemoteSettings
        { partition := none, peers := .absent, grpcTlsCa := "ca",
          grpcTlsClientKey := "key", grpcTlsClientCert := "cert" }).peers =
      .absent := by
  have h := constructor_normalizes_peers
    { partition := none, peers := .arr ["peer1", "peer2"], file := none }
    { partition := none, peers := .absent, grpcTlsCa := "ca",
      grpcTlsClientKey := "key", grpcTlsClientCert := "cert" }
    ["peer1", "peer2"] (by decide)
  exact ⟨h.1 rfl, h.2.2.2.2.2.1 (Or.inl rfl)⟩

/-- C5: on a started embedded connector, for every valid key and every
value with a positive TTL, `set` followed immediately by `get` returns an
envelope whose item equals the value (stamped with the write time and the
TTL). -/
theorem set_then_get_roundtrip {V : Type} (c : Connection V) (g : GunState V)
    (hg : c.gun = some g) (hp : c.settings.partition ≠ "")
    (k : CacheKey) (hs : k.segment ≠ "") (hi : k.id ≠ "")
    (v : V) (ttl : Int) (_httl : 0 < ttl) (now : Int) :
    ∃ c2, Connection.set c (some k) v ttl now = .ok c2 ∧
      Connection.get c2 (some k) =
        .ok (some { item := v, stored := now, ttl := ttl }) := by
  refine ⟨{ c with gun := some (GunState.mk
    (((c.settings.partition, k.segment ++ "/" ++ k.id),
        some { item := v, stored := now, ttl := ttl }) :: g.store)
    (((c.settings.partition, k.segment ++ "/" ++ k.id), now + max ttl 0) ::
        g.timers)) }, ?_, ?_⟩
  · simp [Connection.set, checkKey, generateKey, hs, hi, hg, hp]
  · simp [Connection.get, checkKey, generateKey, hs, hi, hp, findPath]

/-- Witness for C5: a concrete set/get round trip on a fresh started
connector returns the stored item. -/
theorem set_then_get_roundtrip_witness :
    ∃ c2, Connection.set
        ({ settings := { partition := "catbox", file := none },
           gun := some { store := [], timers := [] } } : Connection String)
        (some { segment := "test", id := "x" }) "123" 500 7 = .ok c2 ∧
      Connection.get c2 (some { segment := "test", id := "x" }) =
        .ok (some { item := "123", stored := 7, ttl := 500 }) :=
  set_then_get_roundtrip
    ({ settings := { partition := "catbox", file := none },
       gun := some { store := [], timers := [] } } : Connection String)
    { store := [], timers := [] } rfl (by decide)
    { segment := "test", id := "x" } (by decide) (by decide)
    "123" 500 (by decide) 7

/-- C6: on a started embedded connector, `get` of a valid key whose derived
path was never written returns `null` (a missing node yields `null`), and
`drop` of such a key succeeds without error even though the key and its
segment never existed. -/
theorem get_missing_null_drop_succeeds {V : Type} (c : Connection V)
    (g : GunState V) (hg : c.gun = some g) (hp : c.settings.partition ≠ "")
    (k : CacheKey) (hs : k.segment ≠ "") (hi : k.id ≠ "")
    (hmiss : findPath g.store (c.settings.partition, k.segment ++ "/" ++ k.id) = none) :
    Connection.get c (some k) = .ok none
    ∧ ∃ c2, Connection.drop c (some k) = .ok c2 := by
  constructor
  · simp [Connection.get, checkKey, generateKey, hs, hi, hg, hp, hmiss]
  · refine ⟨{ c with gun := some (GunState.mk
      (((c.settings.partition, k.segment ++ "/" ++ k.id), none) :: g.store)
      g.timers) }, ?_⟩
    simp [Connection.drop, checkKey, generateKey, hs, hi, hg, hp]

/-- Witness for C6: a never-written key on a freshly started connector
reads `null` and drops without error. -/
theorem get_missing_null_drop_succeeds_witness :
    Connection.get
      ({ settings := { partition := "catbox", file := none },
         gun := some { store := [], timers := [] } } : Connection Nat)
      (some { segment := "test", id := "x" }) = .ok none
    ∧ ∃ c2, Connection.drop
        ({ settings := { partition := "catbox", file := none },
           gun := some { store := [], timers := [] } } : Connection Nat)
        (some { segment := "test", id := "x" }) = .ok c2 :=
  get_missing_null_drop_succeeds
    ({ settings := { partition := "catbox", file := none },
       gun := some { store := [], timers := [] } } : Connection Nat)
    { store := [], timers := [] } rfl (by decide)
    { segment := "test", id := "x" } (by decide) (by decide) rfl

/-- Counterexample for C3 as stated: a `set` with `ttl = 0` on a started
embedded connector is not a no-op write — the envelope is stored at the
derived path and an immediately following `get` (before the pending expiry
timer fires) returns it, so something is stored for the key. -/
theorem set_nonpositive_ttl_stores_envelope :
    (Connection.set
        ({ settings := { partition := "catbox", file := none },
           gun := some { store := [], timers := [] } } : Connection String)
        (some { segment := "test", id := "x" }) "y" 0 17).bind
      (fun c2 => Connection.get c2 (some { segment := "test", id := "x" })) =
      .ok (some { item := "y", stored := 17, ttl := 0 }) := rfl

/-- C3 amended: on a started embedded connector a `set` with `ttl ≤ 0` does
not raise: it stores the envelope and arms an expiry timer with zero delay
(the timer fires at the write time itself, `setTimeout` clamping the
negative delay), whose firing tombstones the path so that `get` then
returns `null`; and the remote variant rejects a falsy (`0`) `ttl` through
its own up-front validation before any transport interaction. -/
theorem set_nonpositive_ttl_behavior {V : Type} (c : Connection V)
    (g : GunState V) (hg : c.gun = some g) (hp : c.settings.partition ≠ "")
    (k : CacheKey) (hs : k.segment ≠ "") (hi : k.id ≠ "")
    (v : V) (ttl : Int) (httl : ttl ≤ 0) (now : Int)
    (rc : RConnection) (item : String) (hitem : item ≠ "") :
    (∃ g2, Connection.set c (some k) v ttl now = .ok { c with gun := some g2 } ∧
      g2.timers.head? =
        some ((c.settings.partition, k.segment ++ "/" ++ k.id), now) ∧
      Connection.get { c with gun := some (fireNextTimer g2) } (some k) = .ok none)
    ∧ RConnection.set rc (some k) item 0 = .error .invalidArg := by
  constructor
  · refine ⟨GunState.mk
      (((c.settings.partition, k.segment ++ "/" ++ k.id),
          some { item := v, stored := now, ttl := ttl }) :: g.store)
      (((c.settings.partition, k.segment ++ "/" ++ k.id), now + max ttl 0) ::
          g.timers), ?_, ?_, ?_⟩
    · simp [Connection.set, checkKey, generateKey, hs, hi, hg, hp]
    · simp [max_eq_right httl]
    · simp [Connection.get, checkKey, generateKey, hs, hi, hp, fireNextTimer,
        findPath]
  · simp [RConnection.set, checkKey, hs, hi, hitem]

/-- Witness for C3 amended: concrete zero-TTL write stores then expires to
`null` once the immediate timer fires, and the concrete remote connector
rejects `ttl = 0` up front. -/
theorem set_nonpositive_ttl_behavior_witness :
    (∃ g2, Connection.set
        ({ settings := { partition := "catbox", file := none },
           gun := some { store := [], timers := [] } } : Connection String)
        (some { segment := "test", id := "x" }) "y" 0 17 =
        .ok { settings := { partition := "catbox", file := none },
              gun := some g2 } ∧
      g2.timers.head? = some (("catbox", "test/x"), 17) ∧
      Connection.get
        ({ settings := { partition := "catbox", file := none },
           gun := some (fireNextTimer g2) } : Connection String)
        (some { segment := "test", id := "x" }) = .ok none)
    ∧ RConnection.set
        ⟨⟨"catbox", .absent, "ca", "key", "cert"⟩,
         some ⟨⟨"catbox", .absent, "ca", "key", "cert"⟩⟩⟩
        (some { segment := "test", id := "x" }) "y" 0 = .error .invalidArg :=
  set_nonpositive_ttl_behavior
    ({ settings := { partition := "catbox", file := none },
       gun := some { store := [], timers := [] } } : Connection String)
    { store := [], timers := [] } rfl (by decide)
    { segment := "test", id := "x" } (by decide) (by decide)
    "y" 0 (by decide) 17
    ⟨⟨"catbox", .absent, "ca", "key", "cert"⟩,
     some ⟨⟨"catbox", .absent, "ca", "key", "cert"⟩⟩⟩
    "y" (by decide)

/-- Splitting a character list at a separator occurring in neither prefix
is unambiguous. -/
theorem append_sep_inj (xs : List Char) :
    ∀ (us ys vs : List Char), '/' ∉ xs → '/' ∉ us →
    xs ++ '/' :: ys = us ++ '/' :: vs → xs = us ∧ ys = vs := by
  induction xs with
  | nil =>
    intro us ys vs _ hu h
    cases us with
    | nil => simpa using h
    | cons u ut =>
      simp only [List.nil_append, List.cons_append, List.cons.injEq] at h
      obtain ⟨h1, -⟩ := h
      subst h1
      simp at hu
  | cons x xt ih =>
    intro us ys vs hx hu h
    cases us with
    | nil =>
      simp only [List.nil_append, List.cons_append, List.cons.injEq] at h
      obtain ⟨h1, -⟩ := h
      subst h1
      simp at hx
    | cons u ut =>
      simp only [List.cons_append, List.cons.injEq] at h
      obtain ⟨h1, h2⟩ := h
      have hx2 : '/' ∉ xt := fun hm => hx (List.mem_cons_of_mem _ hm)
      have hu2 : '/' ∉ ut := fun hm => hu (List.mem_cons_of_mem _ hm)
      obtain ⟨h3, h4⟩ := ih ut ys vs hx2 hu2 h2
      exact ⟨by rw [h1, h3], h4⟩

/-- Inversion of `generatePath`: a successful derivation comes from a
non-null key with truthy fields, and the path is the component list. -/
theorem generatePath_ok (s : RSettings) (key : Option CacheKey)
    (p : List String) (h : generatePath s key = .ok p) :
    ∃ k, key = some k ∧ p = [s.partition, k.segment, k.id] := by
  rcases key with _ | k
  · simp only [generatePath] at h
    split_ifs at h
  · simp only [generatePath] at h
    split_ifs at h <;> simp at h
    exact ⟨k, rfl, h.symm⟩

/-- Inversion of `generateKey`: a successful derivation comes from a
non-null key with truthy fields, and the gun key is the slash join. -/
theorem generateKey_ok (key : Option CacheKey) (q : String)
    (h : generateKey key = .ok q) :
    ∃ k, key = some k ∧ q = k.segment ++ "/" ++ k.id := by
  rcases key with _ | k
  · simp [generateKey, checkKey] at h
  · simp only [generateKey, checkKey] at h
    split_ifs at h <;> simp at h
    exact ⟨k, rfl, h.symm⟩

/-- Counterexample for C4 as stated: two valid keys with distinct segments
derive the same embedded-form path, because the slash separator may occur
inside the fields — the joined form is not injective on all valid
`(segment, id)` pairs. -/
theorem generateKey_collision :
    generateKey (some { segment := "a/b", id := "c" }) =
      generateKey (some { segment := "a", id := "b/c" })
    ∧ generateKey (some { segment := "a/b", id := "c" }) = .ok "a/b/c"
    ∧ ({ segment := "a/b", id := "c" } : CacheKey).segment ≠
      ({ segment := "a", id := "b/c" } : CacheKey).segment :=
  ⟨rfl, rfl, by decide⟩

/-- C4 amended: key derivation is deterministic (both forms are functions),
the remote list form `[partition, segment, id]` is injective with respect
to distinct `(segment, id)` pairs unconditionally, and the embedded joined
form `segment + "/" + id` is injective provided the slash separator occurs
in neither segment (the unvalidated assumption the specification flags). -/
theorem key_derivation_injective :
    (∀ (s1 s2 : RSettings) (k1 k2 : Option CacheKey) (p : List String),
      generatePath s1 k1 = .ok p → generatePath s2 k2 = .ok p →
      ∃ a b, k1 = some a ∧ k2 = some b ∧ a.segment = b.segment ∧ a.id = b.id)
    ∧ (∀ (a b : CacheKey) (q : String),
      '/' ∉ a.segment.data → '/' ∉ b.segment.data →
      generateKey (some a) = .ok q → generateKey (some b) = .ok q →
      a.segment = b.segment ∧ a.id = b.id) := by
  constructor
  · intro s1 s2 k1 k2 p h1 h2
    obtain ⟨a, ha, hpa⟩ := generatePath_ok s1 k1 p h1
    obtain ⟨b, hb, hpb⟩ := generatePath_ok s2 k2 p h2
    obtain ⟨-, h5, h6⟩ :
        s1.partition = s2.partition ∧ a.segment = b.segment ∧ a.id = b.id := by
      simpa using hpa.symm.trans hpb
    exact ⟨a, b, ha, hb, h5, h6⟩
  · intro a b q ha hb h1 h2
    obtain ⟨a2, ha2, hq1⟩ := generateKey_ok (some a) q h1
    obtain ⟨b2, hb2, hq2⟩ := generateKey_ok (some b) q h2
    rw [Option.some.injEq] at ha2 hb2
    subst ha2
    subst hb2
    have hq : a.segment ++ "/" ++ a.id = b.segment ++ "/" ++ b.id :=
      hq1.symm.trans hq2
    have hslash : ("/" : String).data = ['/'] := rfl
    have hd : a.segment.data ++ '/' :: a.id.data =
        b.segment.data ++ '/' :: b.id.data := by
      have := congrArg String.data hq
      simpa [String.data_append, hslash, List.append_assoc] using this
    obtain ⟨hseg, hid⟩ := append_sep_inj a.segment.data b.segment.data
      a.id.data b.id.data ha hb hd
    exact ⟨String.ext hseg, String.ext hid⟩

/-- Witness for C4 amended: both injectivity statements applied to concrete
derivations. -/
theorem key_derivation_injective_witness :
    (∃ a b, (some (CacheKey.mk "alpha" "x") : Option CacheKey) = some a ∧
      (some (CacheKey.mk "alpha" "x") : Option CacheKey) = some b ∧
      a.segment = b.segment ∧ a.id = b.id)
    ∧ (("alpha" : String) = "alpha" ∧ ("x" : String) = "x") := by
  constructor
  · exact key_derivation_injective.1
      ⟨"catbox", .absent, "ca", "key", "cert"⟩
      ⟨"catbox", .absent, "ca", "key", "cert"⟩
      (some (CacheKey.mk "alpha" "x")) (some (CacheKey.mk "alpha" "x"))
      ["catbox", "alpha", "x"] rfl rfl
  · exact key_derivation_injective.2 ⟨"alpha", "x"⟩ ⟨"alpha", "x"⟩ "alpha/x"
      (by decide) (by decide) rfl rfl

end CatboxGun
